import Mathlib

/-!
Shallow embedding of `fastify-openid-auth` (src/login.ts, src/verify.ts,
src/refresh.ts, src/logout.ts, src/utils.ts) and proofs about its handler
logic.

Modelling conventions:
* JavaScript objects with optional fields become structures with `Option`
  fields; a field set to `undefined` is modelled as `none` (absent key).
* Async effects performed by collaborators (`jwtVerify` from jose,
  `authorizationCodeGrant` / `refreshTokenGrant` / URL parsing from
  openid-client / WHATWG) are modelled as oracle functions carried in an
  environment record; a thrown exception is an `Except.error` value.
* `Record<string, string>` parameter bags are association lists built in
  insertion order; a later binding for the same key shadows an earlier one
  (JavaScript spread / assignment semantics), so lookup scans the reversed
  list.
-/

namespace FastifyOpenIDAuth

/-- Result of a successful `jwtVerify` call (jose `JWTVerifyResult`),
abstracted to its payload. -/
structure JWTVerifyResult where
  payload : String
deriving DecidableEq, Repr

/-- Error thrown by the jose `jwtVerify` primitive (bad signature, expired
token, issuer/audience mismatch, malformed token), abstracted to a message. -/
abbrev JWTError := String

/-- Error thrown by an openid-client grant call
(`authorizationCodeGrant` / `refreshTokenGrant`). -/
abbrev GrantError := String

/-- The token kinds of `OpenIDTokens` in src/types.ts. -/
inductive OpenIDTokens where
  | id_token
  | access_token
  | refresh_token
deriving DecidableEq, Repr

/-- A JSON value as far as `expires_at` is concerned: the code only checks
`typeof oldTokens.expires_at === 'number'`. -/
inductive JsonValue where
  | num (n : Int)
  | str (s : String)
  | other
deriving DecidableEq, Repr

/-- The fields of an openid-client `TokenEndpointResponse` /
`TokenSetParameters` that the handlers inspect. -/
structure TokenEndpointResponse where
  id_token : Option String := none
  access_token : Option String := none
  refresh_token : Option String := none
  expires_at : Option JsonValue := none
deriving DecidableEq, Repr

/-- Indexing `tokenset[token]` for a token kind. -/
def TokenEndpointResponse.get (ts : TokenEndpointResponse) :
    OpenIDTokens → Option String
  | .id_token => ts.id_token
  | .access_token => ts.access_token
  | .refresh_token => ts.refresh_token

/-- The output mapping `OpenIDJWTVerified` of src/types.ts: at most one
verification result per token kind (a JavaScript object keyed by kind). -/
structure OpenIDJWTVerified where
  id_token : Option JWTVerifyResult := none
  access_token : Option JWTVerifyResult := none
  refresh_token : Option JWTVerifyResult := none
deriving DecidableEq, Repr

/-- Lookup `verified[token]`. -/
def OpenIDJWTVerified.get (v : OpenIDJWTVerified) :
    OpenIDTokens → Option JWTVerifyResult
  | .id_token => v.id_token
  | .access_token => v.access_token
  | .refresh_token => v.refresh_token

/-- Assignment `verified[token] = result`. -/
def OpenIDJWTVerified.set (v : OpenIDJWTVerified) :
    OpenIDTokens → JWTVerifyResult → OpenIDJWTVerified
  | .id_token, r => { v with id_token := some r }
  | .access_token, r => { v with access_token := some r }
  | .refresh_token, r => { v with refresh_token := some r }

/-- `OpenIDVerifyOptions` of src/verify.ts. The jose primitive applied to
`key` and `options` is folded into the single oracle `jwtVerify`
(the source calls `jwtVerify(jwt, key, options)` on both branches of its
`key instanceof Function` test, so one function models both). -/
structure OpenIDVerifyOptions where
  jwtVerify : String → Except JWTError JWTVerifyResult
  tokens : List OpenIDTokens

/-- The loop body of `openIDJWTVerify` (src/verify.ts lines 31-42):
walk `tokens` in listed order, skip kinds absent from the token set,
verify present ones, abort on the first thrown verification error. -/
def openIDJWTVerifyGo (tokenset : TokenEndpointResponse)
    (jv : String → Except JWTError JWTVerifyResult) :
    List OpenIDTokens → OpenIDJWTVerified → Except JWTError OpenIDJWTVerified
  | [], acc => .ok acc
  | t :: ts, acc =>
    match tokenset.get t with
    | none => openIDJWTVerifyGo tokenset jv ts acc
    | some jwt =>
      match jv jwt with
      | .error e => .error e
      | .ok r => openIDJWTVerifyGo tokenset jv ts (acc.set t r)

/-- `openIDJWTVerify` of src/verify.ts. -/
def openIDJWTVerify (tokenset : TokenEndpointResponse)
    (opts : OpenIDVerifyOptions) : Except JWTError OpenIDJWTVerified :=
  openIDJWTVerifyGo tokenset opts.jwtVerify opts.tokens {}

/-- The first verification error met when walking `tokens` in listed order,
skipping kinds absent from the token set (specification device used to
state the abort-on-first-failure property). -/
def firstVerifyFailure (tokenset : TokenEndpointResponse)
    (jv : String → Except JWTError JWTVerifyResult) :
    List OpenIDTokens → Option JWTError
  | [] => none
  | t :: ts =>
    match tokenset.get t with
    | none => firstVerifyFailure tokenset jv ts
    | some jwt =>
      match jv jwt with
      | .error e => some e
      | .ok _ => firstVerifyFailure tokenset jv ts

theorem OpenIDJWTVerified.get_set (v : OpenIDJWTVerified)
    (t k : OpenIDTokens) (r : JWTVerifyResult) :
    (v.set t r).get k = if k = t then some r else v.get k := by
  cases t <;> cases k <;> simp [OpenIDJWTVerified.get, OpenIDJWTVerified.set]

theorem openIDJWTVerifyGo_ok_get (tokenset : TokenEndpointResponse)
    (jv : String → Except JWTError JWTVerifyResult) :
    ∀ (l : List OpenIDTokens) (acc v : OpenIDJWTVerified),
      openIDJWTVerifyGo tokenset jv l acc = .ok v →
      ∀ k, (v.get k).isSome =
        ((l.contains k && (tokenset.get k).isSome) || (acc.get k).isSome) := by
  intro l
  induction l with
  | nil =>
    intro acc v h k
    simp [openIDJWTVerifyGo] at h
    simp [← h]
  | cons t ts ih =>
    intro acc v h k
    rw [openIDJWTVerifyGo] at h
    by_cases hk : k = t
    · subst hk
      cases hts : tokenset.get k with
      | none =>
        simp only [hts] at h
        have := ih acc v h k
        simp [hts, this, List.contains_cons]
      | some jwt =>
        simp only [hts] at h
        cases hjv : jv jwt with
        | error e => simp only [hjv] at h; exact absurd h (by simp)
        | ok r =>
          simp only [hjv] at h
          have := ih (acc.set k r) v h k
          simp [hts, this, List.contains_cons, OpenIDJWTVerified.get_set]
    · cases hts : tokenset.get t with
      | none =>
        simp only [hts] at h
        have := ih acc v h k
        simp [this, List.contains_cons, hk]
      | some jwt =>
        simp only [hts] at h
        cases hjv : jv jwt with
        | error e => simp only [hjv] at h; exact absurd h (by simp)
        | ok r =>
          simp only [hjv] at h
          have := ih (acc.set t r) v h k
          simp [this, List.contains_cons, hk, OpenIDJWTVerified.get_set]

theorem openIDJWTVerifyGo_error_iff (tokenset : TokenEndpointResponse)
    (jv : String → Except JWTError JWTVerifyResult) :
    ∀ (l : List OpenIDTokens) (acc : OpenIDJWTVerified) (e : JWTError),
      openIDJWTVerifyGo tokenset jv l acc = .error e ↔
        firstVerifyFailure tokenset jv l = some e := by
  intro l
  induction l with
  | nil =>
    intro acc e
    simp [openIDJWTVerifyGo, firstVerifyFailure]
  | cons t ts ih =>
    intro acc e
    rw [openIDJWTVerifyGo, firstVerifyFailure]
    cases hts : tokenset.get t with
    | none => exact ih acc e
    | some jwt =>
      cases hjv : jv jwt with
      | error e2 => simp [hjv]
      | ok r => simpa [hjv] using ih (acc.set t r) e

/-! Parameter bags (`Record<string, string>` objects built by spread and
assignment). -/

/-- A `Record<string, string>` built in insertion order; a later binding
shadows an earlier one. -/
abbrev Params := List (String × String)

/-- Reading a key from a parameter bag: the last binding wins
(JavaScript spread / assignment semantics). -/
def pget (p : Params) (k : String) : Option String :=
  p.reverse.lookup k

/-- Writing a key into a parameter bag (`obj.k = v`): append, so the new
binding shadows earlier ones under `pget`. -/
def pset (p : Params) (k : String) (v : String) : Params :=
  p ++ [(k, v)]

theorem pget_pset_same (p : Params) (k v : String) :
    pget (pset p k v) k = some v := by
  simp [pget, pset, List.lookup]

theorem pget_pset_other (p : Params) (k k2 v : String) (h : k ≠ k2) :
    pget (pset p k2 v) k = pget p k := by
  have hb : (k == k2) = false := by simp [h]
  simp [pget, pset, List.lookup, hb]

theorem lookup_append_left {α β : Type} [BEq α] (l1 l2 : List (α × β)) (k : α)
    (v : β) (h : l1.lookup k = some v) : (l1 ++ l2).lookup k = some v := by
  induction l1 with
  | nil => simp [List.lookup] at h
  | cons x xs ih =>
    rw [List.cons_append, List.lookup]
    rw [List.lookup] at h
    cases hx : k == x.1 with
    | true => simpa [hx] using h
    | false => rw [hx] at h; simpa [hx] using ih h

/-! Errors thrown by the handlers (each `createError` class of the source,
plus propagated collaborator exceptions). -/

/-- The distinct error kinds a handler can propagate to the host framework:
the `createError` classes of src/login.ts and src/refresh.ts, and the
exceptions rethrown from openid-client grants and jose verification. -/
inductive HandlerError where
  | sessionKey
  | sessionValue (key : String)
  | supportedMethod
  | refreshTokenMissing
  | grantFailure (e : GrantError)
  | verifyFailure (e : JWTError)
deriving DecidableEq, Repr

/-! Login (src/login.ts, first revision in the file, the one the spec
describes). -/

/-- The `usePKCE?: boolean | 'plain' | 'S256'` option of
`OpenIDLoginHandlerOptions`. -/
inductive UsePKCEOption where
  | bool (b : Bool)
  | plain
  | S256
deriving DecidableEq, Repr

/-- The effective PKCE method strings returned by `resolveSupportedMethod`
and accepted by the handler switch ('S256' / 'plain'). -/
inductive PKCEMethod where
  | S256
  | plain
deriving DecidableEq, Repr

/-- `resolveSupportedMethod` of src/login.ts (lines 86-97), as a function of
the issuer metadata's `code_challenge_methods_supported` list: S256 when the
list is absent or includes 'S256', else plain when it includes 'plain', else
throw `SupportedMethodError`. -/
def resolveSupportedMethod (supported : Option (List String)) :
    Except HandlerError PKCEMethod :=
  match supported with
  | none => .ok .S256
  | some ms =>
    if ms.contains "S256" then .ok .S256
    else if ms.contains "plain" then .ok .plain
    else .error .supportedMethod

/-- The `usePKCE` computation of `openIDLoginHandlerFactory`
(src/login.ts lines 114-119): `none` models the value `false`. -/
def factoryUsePKCE (opt : Option UsePKCEOption)
    (supported : Option (List String)) :
    Except HandlerError (Option PKCEMethod) :=
  match opt with
  | none => .ok none
  | some (.bool true) => (resolveSupportedMethod supported).map some
  | some (.bool false) => .ok none
  | some .plain => .ok (some .plain)
  | some .S256 => .ok (some .S256)

/-- The `CallbackChecks` stored in the session by the login handler. -/
structure CallbackChecks where
  state : Option String := none
  nonce : Option String := none
  pkceCodeVerifier : Option String := none
deriving DecidableEq, Repr

/-- `Object.keys(callbackChecks).length === 0`: with `Option` fields
modelling present keys, emptiness is all fields absent. -/
def CallbackChecks.isEmpty (c : CallbackChecks) : Bool :=
  c.state.isNone && c.nonce.isNone && c.pkceCodeVerifier.isNone

/-- Whether the login callback pre-condition on the stored Authorization
Checks fails: the session value is missing or an empty object. -/
def checksMissingOrEmpty : Option CallbackChecks → Bool
  | none => true
  | some c => c.isEmpty

/-- Environment of one login-handler invocation: the values fixed by the
factory closure, plus oracles for the collaborator effects. -/
structure LoginEnv where
  /-- the factory's `sessionKey`. -/
  sessionKey : String
  /-- the factory's resolved `usePKCE` value (`none` models `false`). -/
  usePKCE : Option PKCEMethod
  /-- result of `resolveParameters(options?.parameters, request, reply)`. -/
  resolvedParams : Option Params
  /-- `resolveRedirectUri(config)`. -/
  configRedirectUri : Option String
  /-- value produced by `randomState()` in this invocation. -/
  freshState : String
  /-- value produced by `randomNonce()` in this invocation. -/
  freshNonce : String
  /-- value produced by `randomPKCECodeVerifier()` in this invocation. -/
  freshVerifier : String
  /-- `calculatePKCECodeChallenge` (base64url SHA-256), as an oracle. -/
  s256 : String → String
  /-- outcome of `authorizationCodeGrant` for the checks passed to it. -/
  grant : CallbackChecks → Except GrantError TokenEndpointResponse
  /-- the factory's `verify` option. -/
  verify : Option OpenIDVerifyOptions

/-- The request data the login handler inspects. -/
structure LoginRequest where
  queryCode : Option String := none
  queryError : Option String := none
  session : Option CallbackChecks := none

/-- Observable effects of a login-handler invocation, in program order:
session writes, the token exchange, and reaching the `write` sink call. -/
inductive LoginEvent where
  | sessionSet (v : Option CallbackChecks)
  | exchange
  | sink (ts : TokenEndpointResponse) (verified : Option OpenIDJWTVerified)
deriving DecidableEq, Repr

/-- How a login-handler invocation answers the request when it does not
throw. -/
inductive LoginReply where
  /-- `reply.redirect(buildAuthorizationUrl(config, parameters).href)`. -/
  | redirected (parameters : Params)
  /-- the callback completed (return value of `write?.call`). -/
  | finished
deriving DecidableEq, Repr

/-- Result of one login-handler invocation: the reply or thrown error, the
session value after the run, and the effect trace. -/
structure LoginOutcome where
  result : Except HandlerError LoginReply
  session : Option CallbackChecks
  events : List LoginEvent

/-- `openIDLoginHandler` of src/login.ts (lines 123-208). The redirect
phase runs when the query has neither `code` nor `error`; otherwise the
callback phase loads and clears the stored checks, exchanges the code,
optionally verifies, and calls the `write` sink. -/
def openIDLoginHandler (env : LoginEnv) (req : LoginRequest) : LoginOutcome :=
  let params := env.resolvedParams
  let redirect_uri : Option String :=
    match params.bind (fun p => pget p "redirect_uri") with
    | some u => some u
    | none => env.configRedirectUri
  let isCallback := req.queryCode.isSome || req.queryError.isSome
  if isCallback = false then
    let state := env.freshState
    let nonce := env.freshNonce
    let parameters : Params :=
      [("scope", "openid"), ("state", state), ("nonce", nonce),
        ("redirect_uri", redirect_uri.getD ""), ("response_type", "code")]
        ++ params.getD []
    let checks : CallbackChecks := { state := some state, nonce := some nonce }
    match env.usePKCE with
    | none =>
      { result := .ok (.redirected parameters), session := some checks,
        events := [.sessionSet (some checks)] }
    | some m =>
      let verifier := env.freshVerifier
      let checks : CallbackChecks := { checks with pkceCodeVerifier := some verifier }
      let parameters : Params :=
        match m with
        | .S256 =>
          pset (pset parameters "code_challenge" (env.s256 verifier))
            "code_challenge_method" "S256"
        | .plain =>
          pset (pset parameters "code_challenge" verifier)
            "code_challenge_method" "plain"
      { result := .ok (.redirected parameters), session := some checks,
        events := [.sessionSet (some checks)] }
  else
    match req.session with
    | none =>
      { result := .error (.sessionValue env.sessionKey),
        session := req.session, events := [] }
    | some checks =>
      if checks.isEmpty then
        { result := .error (.sessionValue env.sessionKey),
          session := req.session, events := [] }
      else
        match env.grant checks with
        | .error e =>
          { result := .error (.grantFailure e), session := none,
            events := [.sessionSet none, .exchange] }
        | .ok tokenset =>
          match env.verify with
          | none =>
            { result := .ok .finished, session := none,
              events := [.sessionSet none, .exchange, .sink tokenset none] }
          | some vopts =>
            match openIDJWTVerify tokenset vopts with
            | .error e =>
              { result := .error (.verifyFailure e), session := none,
                events := [.sessionSet none, .exchange] }
            | .ok verified =>
              { result := .ok .finished, session := none,
                events :=
                  [.sessionSet none, .exchange, .sink tokenset (some verified)] }

/-! Verify handler (src/verify.ts lines 58-68). -/

/-- Result of one verify-handler invocation: the thrown error or completion,
and the arguments the `write` sink was reached with (if it was). -/
structure VerifyOutcome where
  result : Except HandlerError Unit
  sink : Option (TokenEndpointResponse × OpenIDJWTVerified)
deriving Repr

/-- `openIDVerifyHandler`: read the token set, verify it, then call the
`write` sink with the token set and the verification results. The token set
is the value returned by the caller-supplied `read`. -/
def openIDVerifyHandler (vopts : OpenIDVerifyOptions)
    (tokenset : TokenEndpointResponse) : VerifyOutcome :=
  match openIDJWTVerify tokenset vopts with
  | .error e => { result := .error (.verifyFailure e), sink := none }
  | .ok verified => { result := .ok (), sink := some (tokenset, verified) }

/-! Refresh handler (src/refresh.ts). -/

/-- `isTokenExpired` of src/refresh.ts (lines 41-46), with `Date.now()`
passed in as `now` (milliseconds) and `expiresAt` in seconds. -/
def isTokenExpired (now : Int) : Option Int → Bool
  | none => true
  | some expiresAt => decide (now ≥ expiresAt * 1000)

/-- The `expiresAt` coercion of src/refresh.ts (lines 56-59):
`typeof oldTokens.expires_at === 'number' ? oldTokens.expires_at :
undefined`. -/
def numericExpiresAt (ts : TokenEndpointResponse) : Option Int :=
  match ts.expires_at with
  | some (.num n) => some n
  | _ => none

/-- Environment of one refresh-handler invocation: the clock and the
collaborator oracles. -/
structure RefreshEnv where
  /-- `Date.now()` at this invocation, in milliseconds. -/
  now : Int
  /-- outcome of `refreshTokenGrant` for the refresh token passed to it. -/
  grant : String → Except GrantError TokenEndpointResponse
  /-- the factory's `verify` option. -/
  verify : Option OpenIDVerifyOptions

/-- Result of one refresh-handler invocation. -/
structure RefreshOutcome where
  result : Except HandlerError Unit
  /-- whether `refreshTokenGrant` was called (a token-endpoint request). -/
  grantAttempted : Bool
  /-- the arguments the `write` sink was reached with (if it was). -/
  sink : Option (TokenEndpointResponse × Option OpenIDJWTVerified)

/-- `openIDRefreshHandler` of src/refresh.ts (lines 52-83). `oldTokens` is
the token set returned by the caller-supplied `read`. -/
def openIDRefreshHandler (env : RefreshEnv)
    (oldTokens : TokenEndpointResponse) : RefreshOutcome :=
  let expiresAt := numericExpiresAt oldTokens
  if isTokenExpired env.now expiresAt then
    match oldTokens.refresh_token with
    | none =>
      { result := .error .refreshTokenMissing, grantAttempted := false,
        sink := none }
    | some refreshToken =>
      match env.grant refreshToken with
      | .error e =>
        { result := .error (.grantFailure e), grantAttempted := true,
          sink := none }
      | .ok newTokenset =>
        match env.verify with
        | none =>
          { result := .ok (), grantAttempted := true,
            sink := some (newTokenset, none) }
        | some vopts =>
          match openIDJWTVerify newTokenset vopts with
          | .error e =>
            { result := .error (.verifyFailure e), grantAttempted := true,
              sink := none }
          | .ok verified =>
            { result := .ok (), grantAttempted := true,
              sink := some (newTokenset, some verified) }
  else
    { result := .ok (), grantAttempted := false, sink := none }

/-! Logout handler (src/logout.ts, first revision in the file, the one the
spec describes). -/

/-- The components of a parsed WHATWG URL that the logout handler reads. -/
structure URLParts where
  pathname : String
  search : String
deriving DecidableEq, Repr

/-- Environment of one logout-handler invocation. -/
structure LogoutEnv where
  /-- the WHATWG `new URL(s)` constructor as an oracle: `none` models the
  constructor throwing `TypeError [ERR_INVALID_URL]` (relative or
  malformed input). -/
  parseURL : String → Option URLParts
  /-- result of `resolveParameters(parameters, request, reply)`. -/
  resolvedParams : Option Params
  /-- the factory's `verify` option. -/
  verify : Option OpenIDVerifyOptions

/-- The request data the logout handler inspects. -/
structure LogoutRequest where
  /-- `request.url` (path plus query string). -/
  url : String

/-- How a logout-handler invocation answers the request when it does not
throw. -/
inductive LogoutReply where
  /-- the catch branch: `reply.code(500)` then `reply.send` of a body whose
  `error` field is the given string (the body also carries `String(err)` as
  `message`, not modelled). -/
  | localError (status : Nat) (error : String)
  /-- `reply.redirect(buildEndSessionUrl(config, endSessionParams).href)`. -/
  | redirected (endSessionParams : Params)
  /-- the callback branch completed (return value of `write?.call`). -/
  | finished
deriving DecidableEq, Repr

/-- Result of one logout-handler invocation. -/
structure LogoutOutcome where
  result : Except HandlerError LogoutReply
  /-- the arguments the `write` sink was reached with (if it was). -/
  sink : Option (TokenEndpointResponse × Option OpenIDJWTVerified)

/-- The final redirect of `openIDLogoutHandler` (src/logout.ts lines 53-60):
spread the resolved parameters and add `id_token_hint` when
`tokenset.id_token` is truthy, then redirect to the end-session URL. -/
def logoutRedirectOutcome (params : Option Params)
    (tokenset : TokenEndpointResponse) : LogoutOutcome :=
  let endSessionParams := params.getD []
  let endSessionParams :=
    match tokenset.id_token with
    | some t => if t = "" then endSessionParams
                else pset endSessionParams "id_token_hint" t
    | none => endSessionParams
  { result := .ok (.redirected endSessionParams), sink := none }

/-- `openIDLogoutHandler` of src/logout.ts (lines 30-61). `tokenset` is the
token set returned by the caller-supplied `read`. The `try`/`catch` around
the callback branch turns any exception there (URL parse failure, but also
a verification failure) into a local 500 reply whose `error` field is
`'ERR_INVALID_URL'`. -/
def openIDLogoutHandler (env : LogoutEnv) (req : LogoutRequest)
    (tokenset : TokenEndpointResponse) : LogoutOutcome :=
  let params := env.resolvedParams
  match params.bind (fun p => pget p "post_logout_redirect_uri") with
  | some plru =>
    if plru = "" then
      -- a falsy (empty) value skips the callback branch entirely
      logoutRedirectOutcome params tokenset
    else
      match env.parseURL plru with
      | none =>
        -- `new URL` threw; caught: reply locally with a 500
        { result := .ok (.localError 500 "ERR_INVALID_URL"), sink := none }
      | some url =>
        if req.url = url.pathname ++ url.search then
          match env.verify with
          | none => { result := .ok .finished, sink := some (tokenset, none) }
          | some vopts =>
            match openIDJWTVerify tokenset vopts with
            | .error _e =>
              -- the verification error is caught by the same catch block
              { result := .ok (.localError 500 "ERR_INVALID_URL"),
                sink := none }
            | .ok verified =>
              { result := .ok .finished,
                sink := some (tokenset, some verified) }
        else
          logoutRedirectOutcome params tokenset
  | none => logoutRedirectOutcome params tokenset

/-! Claim theorems. -/

theorem OpenIDJWTVerified.get_empty (k : OpenIDTokens) :
    (({} : OpenIDJWTVerified).get k) = none := by
  cases k <;> rfl

/-- C3: `openIDJWTVerify` walks `tokens` in listed order; when it returns a
mapping, that mapping has an entry exactly for each token kind both listed
in `tokens` and defined in the token set (absent kinds are skipped with no
entry and no error); and it returns an error exactly when some listed,
defined token kind fails verification, namely the first such kind in listed
order, whose error aborts the call with no result mapping. -/
theorem openIDJWTVerify_characterization (tokenset : TokenEndpointResponse)
    (opts : OpenIDVerifyOptions) :
    (∀ v, openIDJWTVerify tokenset opts = .ok v →
      ∀ k, (v.get k).isSome =
        (opts.tokens.contains k && (tokenset.get k).isSome))
    ∧ (∀ e, openIDJWTVerify tokenset opts = .error e ↔
        firstVerifyFailure tokenset opts.jwtVerify opts.tokens = some e) := by
  constructor
  · intro v h k
    have := openIDJWTVerifyGo_ok_get tokenset opts.jwtVerify opts.tokens {} v h k
    simpa [OpenIDJWTVerified.get_empty] using this
  · intro e
    exact openIDJWTVerifyGo_error_iff tokenset opts.jwtVerify opts.tokens {} e

/-- Witness inputs for the verifier characterization: a verifier that
accepts everything, one that rejects everything, and a token set holding
only an `id_token`. -/
def witVerifyOptsGood : OpenIDVerifyOptions where
  jwtVerify := fun _ => .ok { payload := "claims" }
  tokens := [.id_token, .access_token]

def witVerifyOptsBad : OpenIDVerifyOptions where
  jwtVerify := fun _ => .error "bad signature"
  tokens := [.id_token, .access_token]

def witTokenSet : TokenEndpointResponse where
  id_token := some "header.claims.sig"

theorem openIDJWTVerify_characterization_witness :
    ((({ id_token := some { payload := "claims" } } : OpenIDJWTVerified).get
        OpenIDTokens.access_token).isSome =
      (witVerifyOptsGood.tokens.contains OpenIDTokens.access_token &&
        (witTokenSet.get OpenIDTokens.access_token).isSome))
    ∧ firstVerifyFailure witTokenSet witVerifyOptsBad.jwtVerify
        witVerifyOptsBad.tokens = some "bad signature" :=
  ⟨(openIDJWTVerify_characterization witTokenSet witVerifyOptsGood).1
      { id_token := some { payload := "claims" } } rfl OpenIDTokens.access_token,
    ((openIDJWTVerify_characterization witTokenSet witVerifyOptsBad).2
      "bad signature").mp rfl⟩

/-- C6: with `usePKCE: true`, the factory resolves the effective method to
S256 when the issuer advertises no `code_challenge_methods_supported` list
or the list includes 'S256'; otherwise to plain when the list includes
'plain'; otherwise it throws `SupportedMethodError`. -/
theorem factoryUsePKCE_negotiation (supported : Option (List String)) :
    (supported = none →
      factoryUsePKCE (some (.bool true)) supported = .ok (some .S256))
    ∧ (∀ ms, supported = some ms → ms.contains "S256" = true →
        factoryUsePKCE (some (.bool true)) supported = .ok (some .S256))
    ∧ (∀ ms, supported = some ms → ms.contains "S256" = false →
        ms.contains "plain" = true →
        factoryUsePKCE (some (.bool true)) supported = .ok (some .plain))
    ∧ (∀ ms, supported = some ms → ms.contains "S256" = false →
        ms.contains "plain" = false →
        factoryUsePKCE (some (.bool true)) supported =
          .error .supportedMethod) := by
  refine ⟨?_, ?_, ?_, ?_⟩
  · intro h; subst h; rfl
  · intro ms h hs; subst h
    have hs' : "S256" ∈ ms := by simpa using hs
    simp [factoryUsePKCE, resolveSupportedMethod, hs', Except.map]
  · intro ms h hs hp; subst h
    have hs' : "S256" ∉ ms := by simpa using hs
    have hp' : "plain" ∈ ms := by simpa using hp
    simp [factoryUsePKCE, resolveSupportedMethod, hs', hp', Except.map]
  · intro ms h hs hp; subst h
    have hs' : "S256" ∉ ms := by simpa using hs
    have hp' : "plain" ∉ ms := by simpa using hp
    simp [factoryUsePKCE, resolveSupportedMethod, hs', hp', Except.map]

theorem factoryUsePKCE_negotiation_witness :
    (factoryUsePKCE (some (.bool true)) none = .ok (some .S256))
    ∧ (factoryUsePKCE (some (.bool true)) (some ["plain", "S256"]) =
        .ok (some .S256))
    ∧ (factoryUsePKCE (some (.bool true)) (some ["plain"]) = .ok (some .plain))
    ∧ (factoryUsePKCE (some (.bool true)) (some ["other"]) =
        .error .supportedMethod) :=
  ⟨(factoryUsePKCE_negotiation none).1 rfl,
    (factoryUsePKCE_negotiation (some ["plain", "S256"])).2.1
      ["plain", "S256"] rfl (by decide),
    (factoryUsePKCE_negotiation (some ["plain"])).2.2.1 ["plain"] rfl
      (by decide) (by decide),
    (factoryUsePKCE_negotiation (some ["other"])).2.2.2 ["other"] rfl
      (by decide) (by decide)⟩

/-- Projection: the authorization parameters of a redirect-phase reply. -/
def LoginOutcome.redirectParams (o : LoginOutcome) : Option Params :=
  match o.result with
  | .ok (.redirected ps) => some ps
  | _ => none

theorem pget_append_right (p q : Params) (k : String) (v : String)
    (h : pget q k = some v) : pget (p ++ q) k = some v := by
  unfold pget at h ⊢
  rw [List.reverse_append]
  exact lookup_append_left q.reverse p.reverse k v h

theorem pget_tail (x : String × String) (q : Params) (k v : String)
    (h : pget q k = some v) : pget (x :: q) k = some v :=
  pget_append_right [x] q k v h

/-- A callback-phase login invocation whose stored checks are missing or
empty throws `SessionValueError` and performs no effect at all. -/
theorem login_missing_checks (env : LoginEnv) (req : LoginRequest)
    (hcb : (req.queryCode.isSome || req.queryError.isSome) = true)
    (hmiss : checksMissingOrEmpty req.session = true) :
    (openIDLoginHandler env req).result =
      .error (.sessionValue env.sessionKey)
    ∧ (openIDLoginHandler env req).events = [] := by
  cases hs : req.session with
  | none =>
    simp [openIDLoginHandler, hcb, hs]
  | some c =>
    rw [hs] at hmiss
    have hce : c.isEmpty = true := by simpa [checksMissingOrEmpty] using hmiss
    simp [openIDLoginHandler, hcb, hs, hce]

/-- A callback-phase login invocation with intact stored checks clears the
session entry first, then attempts the exchange, whatever the exchange and
verification outcomes are. -/
theorem login_callback_run (env : LoginEnv) (req : LoginRequest)
    (c : CallbackChecks)
    (hcb : (req.queryCode.isSome || req.queryError.isSome) = true)
    (hs : req.session = some c) (hce : c.isEmpty = false) :
    (openIDLoginHandler env req).session = none
    ∧ (openIDLoginHandler env req).events.take 2 =
        [LoginEvent.sessionSet none, LoginEvent.exchange] := by
  simp only [openIDLoginHandler, hcb, hs, hce]
  cases hg : env.grant c with
  | error e => simp [hg]
  | ok ts =>
    cases hv : env.verify with
    | none => simp [hg, hv]
    | some vopts =>
      cases hjw : openIDJWTVerify ts vopts with
      | error e => simp [hg, hv, hjw]
      | ok vr => simp [hg, hv, hjw]

/-- C1: in the callback phase (query carries `code` or `error`), missing or
empty stored Authorization Checks make the handler throw
`SessionValueError` with no token exchange; with intact checks the handler
clears the session entry before the exchange is attempted, independent of
the exchange outcome, so a replayed callback against the resulting session
state fails with the session-state error. -/
theorem login_callback_one_shot (env : LoginEnv) (req : LoginRequest)
    (hcb : (req.queryCode.isSome || req.queryError.isSome) = true) :
    (checksMissingOrEmpty req.session = true →
      (openIDLoginHandler env req).result =
        .error (.sessionValue env.sessionKey)
      ∧ LoginEvent.exchange ∉ (openIDLoginHandler env req).events)
    ∧ (checksMissingOrEmpty req.session = false →
      (openIDLoginHandler env req).events.take 2 =
        [LoginEvent.sessionSet none, LoginEvent.exchange]
      ∧ (openIDLoginHandler env req).session = none
      ∧ ∀ req2 : LoginRequest,
          req2.session = (openIDLoginHandler env req).session →
          (req2.queryCode.isSome || req2.queryError.isSome) = true →
          (openIDLoginHandler env req2).result =
            .error (.sessionValue env.sessionKey)) := by
  constructor
  · intro hmiss
    have h := login_missing_checks env req hcb hmiss
    exact ⟨h.1, by simp [h.2]⟩
  · intro hmiss
    cases hs : req.session with
    | none => rw [hs] at hmiss; simp [checksMissingOrEmpty] at hmiss
    | some c =>
      rw [hs] at hmiss
      have hce : c.isEmpty = false := by
        simpa [checksMissingOrEmpty] using hmiss
      have hrun := login_callback_run env req c hcb hs hce
      refine ⟨hrun.2, hrun.1, ?_⟩
      intro req2 hs2 hcb2
      rw [hrun.1] at hs2
      exact (login_missing_checks env req2 hcb2 (by simp [hs2, checksMissingOrEmpty])).1

/-- Concrete login environment used by witnesses: PKCE S256, no caller
parameters, an exchange oracle that succeeds with a fixed token set, and no
verification. -/
def witLoginEnv : LoginEnv where
  sessionKey := "oidc:issuer.example"
  usePKCE := some .S256
  resolvedParams := none
  configRedirectUri := some "https://app.example/cb"
  freshState := "state-1"
  freshNonce := "nonce-1"
  freshVerifier := "verifier-1"
  s256 := fun v => "S256(" ++ v ++ ")"
  grant := fun _ => .ok { id_token := some "header.claims.sig" }
  verify := none

/-- A concrete callback-phase request with intact stored checks. -/
def witLoginCallbackReq : LoginRequest where
  queryCode := some "authcode"
  session := some { state := some "state-0", nonce := some "nonce-0" }

theorem login_callback_one_shot_witness :
    (openIDLoginHandler witLoginEnv witLoginCallbackReq).events.take 2 =
      [LoginEvent.sessionSet none, LoginEvent.exchange]
    ∧ (openIDLoginHandler witLoginEnv witLoginCallbackReq).session = none
    ∧ (openIDLoginHandler witLoginEnv
        { queryCode := some "authcode", session := none }).result =
      .error (.sessionValue "oidc:issuer.example") := by
  have h := (login_callback_one_shot witLoginEnv witLoginCallbackReq
    (by rfl)).2 (by rfl)
  refine ⟨h.1, h.2.1, ?_⟩
  have := h.2.2 { queryCode := some "authcode", session := none }
  simp only [h.2.1] at this
  exact this trivial rfl

/-- C7: in the redirect phase with effective PKCE method S256 the emitted
parameters carry `code_challenge_method = 'S256'` and a `code_challenge`
equal to the S256 challenge of the verifier stored in the session checks;
with method plain the `code_challenge` equals the stored verifier itself. -/
theorem login_pkce_challenge (env : LoginEnv) (req : LoginRequest)
    (hq : req.queryCode = none) (he : req.queryError = none) :
    (env.usePKCE = some PKCEMethod.S256 →
      ((openIDLoginHandler env req).redirectParams.bind
          (fun ps => pget ps "code_challenge_method")) = some "S256"
      ∧ ((openIDLoginHandler env req).redirectParams.bind
          (fun ps => pget ps "code_challenge")) =
        some (env.s256 env.freshVerifier)
      ∧ ((openIDLoginHandler env req).session.bind
          (fun c => c.pkceCodeVerifier)) = some env.freshVerifier)
    ∧ (env.usePKCE = some PKCEMethod.plain →
      ((openIDLoginHandler env req).redirectParams.bind
          (fun ps => pget ps "code_challenge_method")) = some "plain"
      ∧ ((openIDLoginHandler env req).redirectParams.bind
          (fun ps => pget ps "code_challenge")) = some env.freshVerifier
      ∧ ((openIDLoginHandler env req).session.bind
          (fun c => c.pkceCodeVerifier)) = some env.freshVerifier) := by
  constructor <;> intro hp <;>
    simp [openIDLoginHandler, hq, he, hp, LoginOutcome.redirectParams,
      pget_pset_same, pget_pset_other]

/-- A concrete redirect-phase request (no `code` / `error` in the query). -/
def witLoginRedirectReq : LoginRequest where
  queryCode := none

theorem login_pkce_challenge_witness :
    ((openIDLoginHandler witLoginEnv witLoginRedirectReq).redirectParams.bind
        (fun ps => pget ps "code_challenge")) = some "S256(verifier-1)"
    ∧ ((openIDLoginHandler witLoginEnv witLoginRedirectReq).session.bind
        (fun c => c.pkceCodeVerifier)) = some "verifier-1" := by
  have h := (login_pkce_challenge witLoginEnv witLoginRedirectReq rfl rfl).1 rfl
  exact ⟨h.2.1, h.2.2⟩

/-- C10: in the redirect phase, caller-resolved `state` / `nonce` entries
override the generated defaults in the emitted authorization parameters,
while the session checks always store the freshly generated `state` and
`nonce`, so the stored checks and the emitted URL can disagree. -/
theorem login_caller_state_nonce (env : LoginEnv) (req : LoginRequest)
    (s n : String) (hq : req.queryCode = none) (he : req.queryError = none) :
    (pget (env.resolvedParams.getD []) "state" = some s →
      ((openIDLoginHandler env req).redirectParams.bind
          (fun ps => pget ps "state")) = some s)
    ∧ (pget (env.resolvedParams.getD []) "nonce" = some n →
      ((openIDLoginHandler env req).redirectParams.bind
          (fun ps => pget ps "nonce")) = some n)
    ∧ ((openIDLoginHandler env req).session.bind (fun c => c.state)) =
        some env.freshState
    ∧ ((openIDLoginHandler env req).session.bind (fun c => c.nonce)) =
        some env.freshNonce := by
  refine ⟨?_, ?_, ?_, ?_⟩
  · intro hstate
    cases hp : env.usePKCE with
    | none =>
      simp [openIDLoginHandler, hq, he, hp, LoginOutcome.redirectParams]
      exact pget_tail _ _ _ _ (pget_tail _ _ _ _ (pget_tail _ _ _ _
        (pget_tail _ _ _ _ (pget_tail _ _ _ _ hstate))))
    | some m =>
      cases m <;>
        simp [openIDLoginHandler, hq, he, hp, LoginOutcome.redirectParams,
          pget_pset_other] <;>
        exact pget_tail _ _ _ _ (pget_tail _ _ _ _ (pget_tail _ _ _ _
          (pget_tail _ _ _ _ (pget_tail _ _ _ _ hstate))))
  · intro hnonce
    cases hp : env.usePKCE with
    | none =>
      simp [openIDLoginHandler, hq, he, hp, LoginOutcome.redirectParams]
      exact pget_tail _ _ _ _ (pget_tail _ _ _ _ (pget_tail _ _ _ _
        (pget_tail _ _ _ _ (pget_tail _ _ _ _ hnonce))))
    | some m =>
      cases m <;>
        simp [openIDLoginHandler, hq, he, hp, LoginOutcome.redirectParams,
          pget_pset_other] <;>
        exact pget_tail _ _ _ _ (pget_tail _ _ _ _ (pget_tail _ _ _ _
          (pget_tail _ _ _ _ (pget_tail _ _ _ _ hnonce))))
  · cases hp : env.usePKCE with
    | none => simp [openIDLoginHandler, hq, he, hp]
    | some m => cases m <;> simp [openIDLoginHandler, hq, he, hp]
  · cases hp : env.usePKCE with
    | none => simp [openIDLoginHandler, hq, he, hp]
    | some m => cases m <;> simp [openIDLoginHandler, hq, he, hp]

/-- A login environment whose caller parameters supply their own `state`
and `nonce`. -/
def witLoginEnvCallerState : LoginEnv :=
  { witLoginEnv with
    resolvedParams := some [("state", "caller-state"), ("nonce", "caller-nonce")] }

theorem login_caller_state_nonce_witness :
    ((openIDLoginHandler witLoginEnvCallerState witLoginRedirectReq).redirectParams.bind
        (fun ps => pget ps "state")) = some "caller-state"
    ∧ ((openIDLoginHandler witLoginEnvCallerState witLoginRedirectReq).session.bind
        (fun c => c.state)) = some "state-1" := by
  have h := login_caller_state_nonce witLoginEnvCallerState witLoginRedirectReq
    "caller-state" "caller-nonce" rfl rfl
  exact ⟨h.1 (by rfl), h.2.2.1⟩

/-- C4 counterexample: a token set that is due for refresh (expiry in the
past) but has no `refresh_token`. The claim's "a refresh-token grant is
attempted if and only if the token is due" fails here: the token is due,
yet no grant is attempted (the handler throws the missing-refresh-token
error first). -/
theorem refresh_dueness_counterexample :
    isTokenExpired 1 (numericExpiresAt { expires_at := some (.num 0) }) = true
    ∧ (openIDRefreshHandler
          { now := 1, grant := fun _ => .ok {}, verify := none }
          { expires_at := some (.num 0) }).grantAttempted = false
    ∧ (openIDRefreshHandler
          { now := 1, grant := fun _ => .ok {}, verify := none }
          { expires_at := some (.num 0) }).result =
        .error .refreshTokenMissing := by
  refine ⟨by decide, by rfl, by rfl⟩

/-- C4 (amended): a refresh-token grant is attempted iff the token set is
due for refresh (`expires_at` absent or non-numeric, or
`now >= expires_at * 1000`) AND a `refresh_token` is present; when the
token is not due the handler is a no-op: no token-endpoint call, no thrown
error, and the write sink is never reached. -/
theorem refresh_dueness (env : RefreshEnv) (tok : TokenEndpointResponse) :
    (openIDRefreshHandler env tok).grantAttempted =
      (isTokenExpired env.now (numericExpiresAt tok) &&
        tok.refresh_token.isSome)
    ∧ (isTokenExpired env.now (numericExpiresAt tok) = false →
        (openIDRefreshHandler env tok).result = .ok ()
        ∧ (openIDRefreshHandler env tok).grantAttempted = false
        ∧ (openIDRefreshHandler env tok).sink = none) := by
  constructor
  · cases hdue : isTokenExpired env.now (numericExpiresAt tok) with
    | false => simp [openIDRefreshHandler, hdue]
    | true =>
      cases hrt : tok.refresh_token with
      | none => simp [openIDRefreshHandler, hdue, hrt]
      | some rt =>
        cases hg : env.grant rt with
        | error e => simp [openIDRefreshHandler, hdue, hrt, hg]
        | ok ts =>
          cases hv : env.verify with
          | none => simp [openIDRefreshHandler, hdue, hrt, hg, hv]
          | some vopts =>
            cases hjw : openIDJWTVerify ts vopts <;>
              simp [openIDRefreshHandler, hdue, hrt, hg, hv, hjw]
  · intro hdue
    simp [openIDRefreshHandler, hdue]

/-- A token set far from expiry (not due at `now = 0`). -/
def witFreshTok : TokenEndpointResponse where
  expires_at := some (.num 1000)
  refresh_token := some "refresh-1"

theorem refresh_dueness_witness :
    (openIDRefreshHandler
        { now := 0, grant := fun _ => .ok {}, verify := none }
        witFreshTok).grantAttempted =
      (isTokenExpired 0 (numericExpiresAt witFreshTok) &&
        witFreshTok.refresh_token.isSome)
    ∧ (openIDRefreshHandler
        { now := 0, grant := fun _ => .ok {}, verify := none }
        witFreshTok).result = .ok ()
    ∧ (openIDRefreshHandler
        { now := 0, grant := fun _ => .ok {}, verify := none }
        witFreshTok).sink = none := by
  have h := refresh_dueness
    { now := 0, grant := fun _ => .ok {}, verify := none } witFreshTok
  have hnd := h.2 (by decide)
  exact ⟨h.1, hnd.1, hnd.2.2⟩

/-- C5: a due token set with no `refresh_token` makes the refresh handler
throw `OpenIDRefreshTokenMissingError`, with no token-endpoint call and no
sink invocation. -/
theorem refresh_missing_token (env : RefreshEnv) (tok : TokenEndpointResponse)
    (hdue : isTokenExpired env.now (numericExpiresAt tok) = true)
    (hrt : tok.refresh_token = none) :
    (openIDRefreshHandler env tok).result = .error .refreshTokenMissing
    ∧ (openIDRefreshHandler env tok).grantAttempted = false
    ∧ (openIDRefreshHandler env tok).sink = none := by
  simp [openIDRefreshHandler, hdue, hrt]

theorem refresh_missing_token_witness :
    (openIDRefreshHandler
        { now := 1, grant := fun _ => .ok {}, verify := none }
        { expires_at := some (.num 0) }).result =
      .error .refreshTokenMissing
    ∧ (openIDRefreshHandler
        { now := 1, grant := fun _ => .ok {}, verify := none }
        { expires_at := some (.num 0) }).grantAttempted = false :=
  ⟨(refresh_missing_token
      { now := 1, grant := fun _ => .ok {}, verify := none }
      { expires_at := some (.num 0) } (by decide) rfl).1,
    (refresh_missing_token
      { now := 1, grant := fun _ => .ok {}, verify := none }
      { expires_at := some (.num 0) } (by decide) rfl).2.1⟩

/-- Projection: the end-session parameters of a logout redirect reply. -/
def LogoutOutcome.endSessionRedirect (o : LogoutOutcome) : Option Params :=
  match o.result with
  | .ok (.redirected ps) => some ps
  | _ => none

/-- The resolved `post_logout_redirect_uri` parameter of a logout
environment. -/
def logoutPLRU (env : LogoutEnv) : Option String :=
  env.resolvedParams.bind (fun p => pget p "post_logout_redirect_uri")

/-- What the logout redirect branch guarantees: a redirect reply, no sink,
and an `id_token_hint` equal to any non-empty `id_token` of the token set. -/
def LogoutOutcome.isRedirectWithHint (o : LogoutOutcome)
    (ts : TokenEndpointResponse) : Prop :=
  o.endSessionRedirect.isSome = true
  ∧ o.sink = none
  ∧ ∀ t, ts.id_token = some t → t ≠ "" →
      (o.endSessionRedirect.bind (fun ps => pget ps "id_token_hint")) = some t

theorem logoutRedirectOutcome_spec (params : Option Params)
    (ts : TokenEndpointResponse) :
    (logoutRedirectOutcome params ts).isRedirectWithHint ts := by
  unfold LogoutOutcome.isRedirectWithHint
  cases hid : ts.id_token with
  | none =>
    refine ⟨by simp [logoutRedirectOutcome, hid, LogoutOutcome.endSessionRedirect],
      by simp [logoutRedirectOutcome, hid], ?_⟩
    intro t ht _
    exact absurd ht (by simp)
  | some t0 =>
    by_cases h0 : t0 = ""
    · subst h0
      refine ⟨by simp [logoutRedirectOutcome, hid, LogoutOutcome.endSessionRedirect],
        by simp [logoutRedirectOutcome, hid], ?_⟩
      intro t ht hne
      cases ht
      exact absurd rfl hne
    · refine ⟨by simp [logoutRedirectOutcome, hid, h0, LogoutOutcome.endSessionRedirect],
        by simp [logoutRedirectOutcome, hid, h0], ?_⟩
      intro t ht hne
      cases ht
      simp [logoutRedirectOutcome, hid, h0, LogoutOutcome.endSessionRedirect,
        pget_pset_same]

/-- Concrete logout environment whose `post_logout_redirect_uri` is not an
absolute, parseable URL (the WHATWG constructor throws on it). -/
def cexLogoutEnvBadURI : LogoutEnv where
  parseURL := fun _ => none
  resolvedParams := some [("post_logout_redirect_uri", "/relative/path")]
  verify := none

/-- Concrete logout environment with no parameters at all. -/
def cexLogoutEnvNoParams : LogoutEnv where
  parseURL := fun _ => none
  resolvedParams := none
  verify := none

/-- C8 counterexample: (a) with a present but unparseable
`post_logout_redirect_uri` the request URL matches no path+query of that
URI, so the claim demands a redirect, but the handler replies with a local
500 `ERR_INVALID_URL` body instead; (b) with an `id_token` that is present
but empty the claim demands `id_token_hint` in the redirect parameters, but
the handler omits it. -/
theorem logout_branching_counterexample :
    (openIDLogoutHandler cexLogoutEnvBadURI { url := "/logout" }
        witTokenSet).endSessionRedirect = none
    ∧ (openIDLogoutHandler cexLogoutEnvBadURI { url := "/logout" }
        witTokenSet).result = .ok (.localError 500 "ERR_INVALID_URL")
    ∧ ({ id_token := some "" } : TokenEndpointResponse).id_token = some ""
    ∧ ((openIDLogoutHandler cexLogoutEnvNoParams { url := "/logout" }
        { id_token := some "" }).endSessionRedirect.bind
          (fun ps => pget ps "id_token_hint")) = none := by
  refine ⟨rfl, rfl, rfl, rfl⟩

/-- C8 (amended): when the resolved parameters carry a non-empty
`post_logout_redirect_uri` that parses as a URL and the request URL equals
its pathname plus search, the handler takes the post-logout-callback branch
(optional verification, then the write sink with the token set, provided
verification succeeds when configured); when the parameter is absent,
empty, or parses to a URL the request does not match, the handler replies
with a redirect to the end-session URL whose parameters include
`id_token_hint` equal to `tokenSet.id_token` whenever a non-empty
`id_token` is present. With a present, non-empty, unparseable parameter
the handler instead replies locally with 500 `ERR_INVALID_URL` (see the
counterexample). -/
theorem logout_branching (env : LogoutEnv) (req : LogoutRequest)
    (ts : TokenEndpointResponse) :
    (∀ v u, logoutPLRU env = some v → v ≠ "" → env.parseURL v = some u →
      req.url = u.pathname ++ u.search →
      (env.verify = none →
        (openIDLogoutHandler env req ts).result = .ok .finished
        ∧ (openIDLogoutHandler env req ts).sink = some (ts, none))
      ∧ (∀ vopts vr, env.verify = some vopts →
          openIDJWTVerify ts vopts = .ok vr →
          (openIDLogoutHandler env req ts).result = .ok .finished
          ∧ (openIDLogoutHandler env req ts).sink = some (ts, some vr)))
    ∧ (logoutPLRU env = none →
        (openIDLogoutHandler env req ts).isRedirectWithHint ts)
    ∧ (logoutPLRU env = some "" →
        (openIDLogoutHandler env req ts).isRedirectWithHint ts)
    ∧ (∀ v u, logoutPLRU env = some v → v ≠ "" → env.parseURL v = some u →
        req.url ≠ u.pathname ++ u.search →
        (openIDLogoutHandler env req ts).isRedirectWithHint ts) := by
  refine ⟨?_, ?_, ?_, ?_⟩
  · intro v u hp hne hparse hmatch
    rw [logoutPLRU] at hp
    constructor
    · intro hv
      constructor <;>
        simp [openIDLogoutHandler, hp, hne, hparse, hmatch, hv]
    · intro vopts vr hv hjw
      constructor <;>
        simp [openIDLogoutHandler, hp, hne, hparse, hmatch, hv, hjw]
  · intro hp
    rw [logoutPLRU] at hp
    have : openIDLogoutHandler env req ts =
        logoutRedirectOutcome env.resolvedParams ts := by
      simp [openIDLogoutHandler, hp]
    rw [this]
    exact logoutRedirectOutcome_spec env.resolvedParams ts
  · intro hp
    rw [logoutPLRU] at hp
    have : openIDLogoutHandler env req ts =
        logoutRedirectOutcome env.resolvedParams ts := by
      simp [openIDLogoutHandler, hp]
    rw [this]
    exact logoutRedirectOutcome_spec env.resolvedParams ts
  · intro v u hp hne hparse hmatch
    rw [logoutPLRU] at hp
    have : openIDLogoutHandler env req ts =
        logoutRedirectOutcome env.resolvedParams ts := by
      simp [openIDLogoutHandler, hp, hne, hparse, hmatch]
    rw [this]
    exact logoutRedirectOutcome_spec env.resolvedParams ts

/-- Concrete logout environment with a matching, parseable
`post_logout_redirect_uri` and no verification. -/
def witLogoutEnvMatch : LogoutEnv where
  parseURL := fun s =>
    if s = "http://localhost:8080/logout" then
      some { pathname := "/logout", search := "" }
    else none
  resolvedParams :=
    some [("post_logout_redirect_uri", "http://localhost:8080/logout")]
  verify := none

theorem logout_branching_witness :
    ((openIDLogoutHandler witLogoutEnvMatch { url := "/logout" }
        witTokenSet).result = .ok .finished
      ∧ (openIDLogoutHandler witLogoutEnvMatch { url := "/logout" }
          witTokenSet).sink = some (witTokenSet, none))
    ∧ ((openIDLogoutHandler cexLogoutEnvNoParams { url := "/logout" }
        witTokenSet).endSessionRedirect.bind
          (fun ps => pget ps "id_token_hint")) = some "header.claims.sig" := by
  constructor
  · exact ((logout_branching witLogoutEnvMatch { url := "/logout" }
      witTokenSet).1 "http://localhost:8080/logout"
      { pathname := "/logout", search := "" } rfl (by decide) (by rfl)
      (by rfl)).1 rfl
  · exact ((logout_branching cexLogoutEnvNoParams { url := "/logout" }
      witTokenSet).2.1 rfl).2.2 "header.claims.sig" rfl (by decide)

/-- C9 counterexample: with a present, non-absolute
`post_logout_redirect_uri` the handler does not let the URL-parse failure
propagate to the host framework's error-handling layer: it returns
normally after replying 500 `ERR_INVALID_URL` itself (an `ok` outcome, not
a thrown error). -/
theorem logout_invalid_uri_counterexample :
    (openIDLogoutHandler cexLogoutEnvBadURI { url := "/logout" }
        witTokenSet).result = .ok (.localError 500 "ERR_INVALID_URL")
    ∧ (openIDLogoutHandler cexLogoutEnvBadURI { url := "/logout" }
        witTokenSet).result ≠
      .error (.sessionValue "ERR_INVALID_URL") := by
  have h1 : (openIDLogoutHandler cexLogoutEnvBadURI { url := "/logout" }
      witTokenSet).result = .ok (.localError 500 "ERR_INVALID_URL") := rfl
  exact ⟨h1, by rw [h1]; simp⟩

/-- C9 (amended): with a present, non-empty `post_logout_redirect_uri` that
the URL constructor rejects, the handler does not redirect to the broken
location and does not invoke the sink; it handles the failure locally,
replying 500 with a body identifying `ERR_INVALID_URL`, instead of
propagating the error to the host framework's error-handling layer. -/
theorem logout_invalid_uri (env : LogoutEnv) (req : LogoutRequest)
    (ts : TokenEndpointResponse) (v : String) (hp : logoutPLRU env = some v)
    (hne : v ≠ "") (hparse : env.parseURL v = none) :
    (openIDLogoutHandler env req ts).result =
      .ok (.localError 500 "ERR_INVALID_URL")
    ∧ (openIDLogoutHandler env req ts).sink = none
    ∧ (openIDLogoutHandler env req ts).endSessionRedirect = none := by
  rw [logoutPLRU] at hp
  refine ⟨?_, ?_, ?_⟩ <;>
    simp [openIDLogoutHandler, hp, hne, hparse,
      LogoutOutcome.endSessionRedirect]

theorem logout_invalid_uri_witness :
    (openIDLogoutHandler cexLogoutEnvBadURI { url := "/other" }
        witTokenSet).result = .ok (.localError 500 "ERR_INVALID_URL")
    ∧ (openIDLogoutHandler cexLogoutEnvBadURI { url := "/other" }
        witTokenSet).sink = none :=
  ⟨(logout_invalid_uri cexLogoutEnvBadURI { url := "/other" } witTokenSet
      "/relative/path" rfl (by decide) rfl).1,
    (logout_invalid_uri cexLogoutEnvBadURI { url := "/other" } witTokenSet
      "/relative/path" rfl (by decide) rfl).2.1⟩

/-- Concrete logout environment with a matching callback URI and a
verifier that rejects every token. -/
def cexLogoutEnvVerifyBad : LogoutEnv where
  parseURL := fun s =>
    if s = "http://localhost:8080/logout" then
      some { pathname := "/logout", search := "" }
    else none
  resolvedParams :=
    some [("post_logout_redirect_uri", "http://localhost:8080/logout")]
  verify := some witVerifyOptsBad

/-- C2 counterexample: in the logout callback branch a Token Verifier
error does NOT propagate out of the handler: the surrounding `try`/`catch`
converts it into a locally sent 500 `ERR_INVALID_URL` reply (a normal
return, not a thrown verification error). The sink is still never
invoked. -/
theorem verify_error_propagation_counterexample :
    (openIDLogoutHandler cexLogoutEnvVerifyBad { url := "/logout" }
        witTokenSet).result = .ok (.localError 500 "ERR_INVALID_URL")
    ∧ (openIDLogoutHandler cexLogoutEnvVerifyBad { url := "/logout" }
        witTokenSet).result ≠ .error (.verifyFailure "bad signature")
    ∧ (openIDLogoutHandler cexLogoutEnvVerifyBad { url := "/logout" }
        witTokenSet).sink = none := by
  have h1 : (openIDLogoutHandler cexLogoutEnvVerifyBad { url := "/logout" }
      witTokenSet).result = .ok (.localError 500 "ERR_INVALID_URL") := rfl
  exact ⟨h1, by rw [h1]; simp, rfl⟩

/-- C2 (amended): a Token Verifier error aborts the login callback, the
verify handler and the refresh handler, propagating as the thrown
verification error with the write sink never reached; in the logout
callback branch the error is instead caught by the handler's `try`/`catch`
and answered locally with a 500 `ERR_INVALID_URL` reply — the sink is
still never reached. -/
theorem verify_error_propagation
    (lenv : LoginEnv) (lreq : LoginRequest) (c : CallbackChecks)
    (ts : TokenEndpointResponse) (vopts : OpenIDVerifyOptions) (e : JWTError)
    (renv : RefreshEnv) (rtok : TokenEndpointResponse) (rt : String)
    (genv : LogoutEnv) (greq : LogoutRequest) (u : URLParts) (v : String) :
    ((lreq.queryCode.isSome || lreq.queryError.isSome) = true →
      lreq.session = some c → c.isEmpty = false →
      lenv.grant c = .ok ts → lenv.verify = some vopts →
      openIDJWTVerify ts vopts = .error e →
      (openIDLoginHandler lenv lreq).result = .error (.verifyFailure e)
      ∧ ∀ t vr, LoginEvent.sink t vr ∉ (openIDLoginHandler lenv lreq).events)
    ∧ (openIDJWTVerify ts vopts = .error e →
      (openIDVerifyHandler vopts ts).result = .error (.verifyFailure e)
      ∧ (openIDVerifyHandler vopts ts).sink = none)
    ∧ (isTokenExpired renv.now (numericExpiresAt rtok) = true →
      rtok.refresh_token = some rt → renv.grant rt = .ok ts →
      renv.verify = some vopts → openIDJWTVerify ts vopts = .error e →
      (openIDRefreshHandler renv rtok).result = .error (.verifyFailure e)
      ∧ (openIDRefreshHandler renv rtok).sink = none)
    ∧ (logoutPLRU genv = some v → v ≠ "" → genv.parseURL v = some u →
      greq.url = u.pathname ++ u.search → genv.verify = some vopts →
      openIDJWTVerify ts vopts = .error e →
      (openIDLogoutHandler genv greq ts).result =
        .ok (.localError 500 "ERR_INVALID_URL")
      ∧ (openIDLogoutHandler genv greq ts).sink = none) := by
  refine ⟨?_, ?_, ?_, ?_⟩
  · intro hcb hs hce hg hv hjw
    constructor
    · simp [openIDLoginHandler, hcb, hs, hce, hg, hv, hjw]
    · intro t vr
      simp [openIDLoginHandler, hcb, hs, hce, hg, hv, hjw]
  · intro hjw
    constructor <;> simp [openIDVerifyHandler, hjw]
  · intro hdue hrt hg hv hjw
    constructor <;> simp [openIDRefreshHandler, hdue, hrt, hg, hv, hjw]
  · intro hp hne hparse hmatch hv hjw
    rw [logoutPLRU] at hp
    constructor <;>
      simp [openIDLogoutHandler, hp, hne, hparse, hmatch, hv, hjw]

/-- Login environment whose verifier rejects every token. -/
def witLoginEnvVerifyBad : LoginEnv :=
  { witLoginEnv with verify := some witVerifyOptsBad }

/-- Refresh environment whose verifier rejects every token. -/
def witRefreshEnvVerifyBad : RefreshEnv where
  now := 1
  grant := fun _ => .ok witTokenSet
  verify := some witVerifyOptsBad

/-- A due token set with a refresh token present. -/
def witDueTok : TokenEndpointResponse where
  expires_at := some (.num 0)
  refresh_token := some "refresh-0"

theorem verify_error_propagation_witness :
    ((openIDLoginHandler witLoginEnvVerifyBad witLoginCallbackReq).result =
        .error (.verifyFailure "bad signature")
      ∧ LoginEvent.sink witTokenSet none ∉
          (openIDLoginHandler witLoginEnvVerifyBad witLoginCallbackReq).events)
    ∧ ((openIDVerifyHandler witVerifyOptsBad witTokenSet).result =
        .error (.verifyFailure "bad signature")
      ∧ (openIDVerifyHandler witVerifyOptsBad witTokenSet).sink = none)
    ∧ ((openIDRefreshHandler witRefreshEnvVerifyBad witDueTok).result =
        .error (.verifyFailure "bad signature")
      ∧ (openIDRefreshHandler witRefreshEnvVerifyBad witDueTok).sink = none)
    ∧ ((openIDLogoutHandler cexLogoutEnvVerifyBad { url := "/logout" }
        witTokenSet).result = .ok (.localError 500 "ERR_INVALID_URL")
      ∧ (openIDLogoutHandler cexLogoutEnvVerifyBad { url := "/logout" }
          witTokenSet).sink = none) := by
  have h := verify_error_propagation
    witLoginEnvVerifyBad witLoginCallbackReq
    { state := some "state-0", nonce := some "nonce-0" }
    witTokenSet witVerifyOptsBad "bad signature"
    witRefreshEnvVerifyBad witDueTok "refresh-0"
    cexLogoutEnvVerifyBad { url := "/logout" }
    { pathname := "/logout", search := "" } "http://localhost:8080/logout"
  have h1 := h.1 rfl rfl rfl rfl rfl rfl
  have h2 := h.2.1 rfl
  have h3 := h.2.2.1 (by decide) rfl rfl rfl rfl
  have h4 := h.2.2.2 rfl (by decide) rfl rfl rfl rfl
  exact ⟨⟨h1.1, h1.2 witTokenSet none⟩, h2, h3, h4⟩

end FastifyOpenIDAuth
